import Mathlib

/-!
# syncthing-relay-reporter: a shallow embedding of `main.go`

The program polls a Syncthing relay status endpoint on a ticker and forwards
the metrics to InfluxDB.  Everything the program receives from outside (flag
values, HTTP outcomes, the clock, the events its `select` consumes) is an
explicit argument; everything it does that can be observed (log lines, the
POST handed to the HTTP client, a return or a panic) is an explicit result.

Conventions.
* Go strings are Lean `String`s.  The two places where the program looks at
  single bytes (`url[len(url)-1] != '/'` and the percent-encoding of
  `net/url`) are stated on characters; they agree with the byte-level code
  because in UTF-8 a byte below 0x80 is always a whole character.
* A finite `float64` is held exactly, as the rational number it denotes.
  Its `%v` rendering, `json.Unmarshal` and the URL syntax check of
  `http.NewRequest` belong to the Go standard library and are parameters
  (`Env`).
* Log lines keep their level and message; the wall-clock stamp the helpers
  put in front of the message is left out.
-/

namespace RelayReporter

/-! ## Observable results -/

/-- The ways a Go function of this program stops abnormally. -/
inductive Panic where
  /-- A call `panic("...")` with a string. -/
  | message (msg : String)
  /-- A call `panic(err)` with an error value, kept by its text. -/
  | error (err : String)
  /-- Runtime error: index out of range `[index]` with length `length`. -/
  | indexOutOfRange (index : Int) (length : Nat)
  /-- Runtime error: a single-value type assertion `x.(T)` on a value that is not a `T`. -/
  | interfaceConversion
  /-- Runtime error: nil pointer dereference. -/
  | nilDereference
  /-- The panic of `time.NewTicker` on an interval that is not positive. -/
  | nonPositiveInterval
  deriving DecidableEq, Repr

/-- How a call ends: it returns a value or it panics. -/
inductive Exit (α : Type) where
  | returned (a : α)
  | panicked (p : Panic)
  deriving DecidableEq, Repr

/-- One console line, by the helper that wrote it
(`debug_loggging`, `logging`, `error_logging`). -/
inductive LogLine where
  | debug (msg : String)
  | info (msg : String)
  | error (msg : String)
  deriving DecidableEq, Repr

/-- The log lines written by a call together with the way it ended. -/
structure Outcome (α : Type) where
  logs : List LogLine
  exit : Exit α
  deriving DecidableEq, Repr

/-! ## Dynamic values and `fmt` -/

/-- A Go `interface{}` value of the dynamic types that occur in the program:
what `json.Unmarshal` stores in a `map[string]interface{}` (nil, bool,
float64, string, `[]interface{}`, `map[string]interface{}`) and `int64`
(the timestamp).  The entries of a map are listed in the order `fmt` prints
them (sorted by key). -/
inductive Value where
  | nil
  | bool (b : Bool)
  | float64 (f : ℚ)
  | string (s : String)
  | int64 (i : Int)
  | slice (elems : List Value)
  | map (entries : List (String × Value))
  deriving Repr

/-- A decoded JSON object, `map[string]interface{}`. -/
abbrev JsonMap := List (String × Value)

/-- Map indexing `m[key]`: the stored value, or the zero value of
`interface{}` (nil) when the key is absent. -/
def JsonMap.index (m : JsonMap) (key : String) : Value :=
  (m.lookup key).getD Value.nil

/-- The single-value type assertion `v.([]interface{})`. -/
def Value.assertSlice : Value → Exit (List Value)
  | .slice elems => .returned elems
  | _ => .panicked .interfaceConversion

/-- The single-value type assertion `v.(string)`. -/
def Value.assertString : Value → Exit String
  | .string s => .returned s
  | _ => .panicked .interfaceConversion

/-- Slice indexing `s[i]` with its bounds check. -/
def sliceIndex (s : List Value) (i : Nat) : Exit Value :=
  match s.get? i with
  | some v => .returned v
  | none => .panicked (.indexOutOfRange i s.length)

mutual
/-- The `%v` rendering of a value; `g` renders a float64 (`%g`, shortest). -/
def fmtV (g : ℚ → String) : Value → String
  | .nil => "<nil>"
  | .bool b => if b then "true" else "false"
  | .float64 f => g f
  | .string s => s
  | .int64 i => toString i
  | .slice elems => "[" ++ fmtElems g elems ++ "]"
  | .map entries => "map[" ++ fmtEntries g entries ++ "]"
/-- Elements of a slice under `%v`, separated by one space. -/
def fmtElems (g : ℚ → String) : List Value → String
  | [] => ""
  | [v] => fmtV g v
  | v :: vs => fmtV g v ++ " " ++ fmtElems g vs
/-- Entries of a map under `%v`: `key:value`, separated by one space. -/
def fmtEntries (g : ℚ → String) : List (String × Value) → String
  | [] => ""
  | [(k, v)] => k ++ ":" ++ fmtV g v
  | (k, v) :: es => k ++ ":" ++ fmtV g v ++ " " ++ fmtEntries g es
end

/-- The type name `fmt` prints in its error forms. -/
def Value.typeName : Value → String
  | .nil => "<nil>"
  | .bool _ => "bool"
  | .float64 _ => "float64"
  | .string _ => "string"
  | .int64 _ => "int64"
  | .slice _ => "[]interface \x7b\x7d"
  | .map _ => "map[string]interface \x7b\x7d"

/-- The bad-verb form of `fmt`: `%!verb(type=value)`, and `%!verb(<nil>)` for nil. -/
def badVerb (g : ℚ → String) (verb : Char) (v : Value) : String :=
  match v with
  | .nil => "%!" ++ String.singleton verb ++ "(<nil>)"
  | _ => "%!" ++ String.singleton verb ++ "(" ++ v.typeName ++ "=" ++ fmtV g v ++ ")"

/-- One operand under one verb.  The verb/operand pairs the program uses are
interpreted: `%v` of anything, `%s` of a string, `%d` of an int64.  Every
other pair is rendered in the bad-verb form. -/
def printArg (g : ℚ → String) (verb : Char) (v : Value) : String :=
  if verb = 'v' then fmtV g v
  else match verb, v with
    | 's', .string s => s
    | 'd', .int64 i => toString i
    | _, _ => badVerb g verb v

/-- Operands left over after the format is used up: `type=value, type=value`. -/
def extraArgs (g : ℚ → String) : List Value → String
  | [] => ""
  | [v] => v.typeName ++ "=" ++ fmtV g v
  | v :: vs => v.typeName ++ "=" ++ fmtV g v ++ ", " ++ extraArgs g vs

/-- The scan of `fmt.Sprintf` over the format: text is copied, `%%` is a
percent sign, `%` and a verb consume one operand.  Flags, widths and
precisions do not occur in the program and are not interpreted. -/
def sprintfGo (g : ℚ → String) : List Char → List Value → String
  | [], [] => ""
  | [], a :: args => "%!(EXTRA " ++ extraArgs g (a :: args) ++ ")"
  | ['%'], _ => "%!(NOVERB)"
  | '%' :: '%' :: rest, args => "%" ++ sprintfGo g rest args
  | '%' :: verb :: rest, [] => "%!" ++ String.singleton verb ++ "(MISSING)" ++ sprintfGo g rest []
  | '%' :: verb :: rest, a :: args => printArg g verb a ++ sprintfGo g rest args
  | c :: rest, args => String.singleton c ++ sprintfGo g rest args

/-- The call `fmt.Sprintf(format, args...)`. -/
def Sprintf (g : ℚ → String) (format : String) (args : List Value) : String :=
  sprintfGo g format.data args

/-! ## `net/url` -/

/-- The table `upperhex` of `net/url`. -/
def upperhex (n : Nat) : Char :=
  "0123456789ABCDEF".data.getD n '0'

/-- The function `shouldEscape(c, encodeQueryComponent)`: letters, digits and
`-`, `_`, `.`, `~` are kept, every other byte is escaped. -/
def shouldEscape (c : Char) : Bool :=
  !(c.isAlphanum || c == '-' || c == '_' || c == '.' || c == '~')

/-- One byte as `%XX`. -/
def pctEncode (b : Nat) : List Char :=
  ['%', upperhex (b / 16), upperhex (b % 16)]

/-- What `escape(s, encodeQueryComponent)` writes for one character: itself
when it is not escaped, `+` for a space, and `%XX` for each of its UTF-8
bytes otherwise. -/
def escapeChar (c : Char) : List Char :=
  if shouldEscape c then
    if c = ' ' then ['+']
    else (String.utf8EncodeChar c).flatMap (fun b => pctEncode b.toNat)
  else [c]

/-- The function `url.QueryEscape`. -/
def QueryEscape (s : String) : String :=
  ⟨s.data.flatMap escapeChar⟩

/-- The type `url.Values`, `map[string][]string`, its keys in sorted order. -/
abbrev Values := List (String × List String)

/-- The method `Values.Add`: append the value to the list stored at the key. -/
def Values.Add : Values → String → String → Values
  | [], key, value => [(key, [value])]
  | (k, vs) :: rest, key, value =>
    if key = k then (k, vs ++ [value]) :: rest
    else if key < k then (key, [value]) :: (k, vs) :: rest
    else (k, vs) :: Values.Add rest key value

/-- The `key=value` pairs `Values.Encode` writes, in order. -/
def Values.pairs (v : Values) : List String :=
  v.flatMap (fun kv => kv.2.map (fun value => QueryEscape kv.1 ++ "=" ++ QueryEscape value))

/-- The method `Values.Encode`: the escaped pairs joined by `&`. -/
def Values.Encode (v : Values) : String :=
  "&".intercalate v.pairs

/-! ## Configuration -/

/-- The struct `configuration`. -/
structure configuration where
  syncthingRelayUrl : String
  syncthingRelayName : String
  influxdbUrl : String
  influxdbDatabase : String
  influxdbUsername : String
  influxdbPassword : String
  rateMultiplier : ℚ
  debug : Bool
  deriving DecidableEq, Repr

/-- The values behind the eight flag pointers once `flag.Parse` has returned;
a flag that is not given holds its default (`""`, `"default-relay"`, `1`,
`false`). -/
structure Flags where
  debug : Bool
  rateMultiplier : ℚ
  syncthingRelayUrl : String
  syncthingRelayName : String
  influxdbUrl : String
  influxdbDatabase : String
  influxdbUsername : String
  influxdbPassword : String
  deriving DecidableEq, Repr

/-- The parts of the Go standard library and runtime the program relies on
and this development does not define. -/
structure Env where
  /-- The `%v` rendering of a float64. -/
  fmtFloat : ℚ → String
  /-- The call `json.Unmarshal(body, &m)` for a `map[string]interface{}`: the
  error text, or the decoded map. -/
  unmarshal : String → Except String JsonMap
  /-- Whether `url.Parse` accepts the string (`http.NewRequest` fails otherwise). -/
  urlParses : String → Bool
  /-- The int64 a float64 outside the int64 range converts to. -/
  convOverflow : Int

/-- The call `fmt.Sprint(conf)`: the fields in declaration order between
braces, separated by spaces. -/
def Sprint (env : Env) (conf : configuration) : String :=
  "\x7b" ++ conf.syncthingRelayUrl ++ " " ++ conf.syncthingRelayName ++ " " ++
    conf.influxdbUrl ++ " " ++ conf.influxdbDatabase ++ " " ++
    conf.influxdbUsername ++ " " ++ conf.influxdbPassword ++ " " ++
    env.fmtFloat conf.rateMultiplier ++ " " ++
    (if conf.debug then "true" else "false") ++ "\x7d"

/-- The function `configuration_builder`, from the parsed flag values on. -/
def configuration_builder (env : Env) (flags : Flags) : Outcome configuration :=
  let url := flags.influxdbUrl
  -- url[len(url)-1]
  match url.data.getLast? with
  | none => ⟨[], .panicked (.indexOutOfRange (-1) 0)⟩
  | some last =>
    let influxdbUrl := if last ≠ '/' then url ++ "/" else flags.influxdbUrl
    let conf : configuration :=
      { debug := flags.debug
        rateMultiplier := flags.rateMultiplier
        syncthingRelayUrl := flags.syncthingRelayUrl
        syncthingRelayName := flags.syncthingRelayName
        influxdbUrl := influxdbUrl
        influxdbDatabase := flags.influxdbDatabase
        influxdbUsername := flags.influxdbUsername
        influxdbPassword := flags.influxdbPassword }
    let l0 := if conf.debug then [LogLine.debug (Sprint env conf)] else []
    let l1 := l0 ++ (if conf.rateMultiplier = 1 then
      [LogLine.info "Rate multiplier at the default value of 1! Set with the --rate-multiplier= argument."] else [])
    if conf.syncthingRelayUrl = "" then
      ⟨l1, .panicked (.message "No Syncthing relay URL found! Set with the --relay-url= argument.")⟩
    else
    let l2 := l1 ++ (if conf.syncthingRelayName = "default-relay" then
      [LogLine.info "No Syncthing relay name found! Using the default name \x27default-relay\x27. Set with the --relay-name= argument."] else [])
    if conf.influxdbUrl = "" then
      ⟨l2, .panicked (.message "No InfluxDB URL found! Set with the --influxdb-url= argument.")⟩
    else if conf.influxdbDatabase = "" then
      ⟨l2, .panicked (.message "No InfluxDB database found! Set with the --influxdb-database= argument.")⟩
    else
    let l3 := l2 ++ (if conf.influxdbUsername = "" then
      [LogLine.info "No InfluxDB username found! If needed, set with the --influxdb-username= argument."] else [])
    let l4 := l3 ++ (if conf.influxdbPassword = "" then
      [LogLine.info "No InfluxDB password found! If needed, set with the --influxdb-password= argument."] else [])
    ⟨l4, .returned conf⟩

/-! ## HTTP -/

/-- What an HTTP call hands back to the program: the error of `http.Get` or
`client.Do`, or a response with its status code and the result of
`ioutil.ReadAll(response.Body)` (the error text, or the bytes). -/
inductive Get where
  | failed (err : String)
  | response (status : Int) (body : Except String String)

/-- A request as `reporter` builds it. -/
structure Request where
  method : String
  url : String
  header : List (String × String)
  body : String
  deriving DecidableEq, Repr

/-- The hint both relay messages of `conn_tester` end with. -/
def urlHint : String :=
  " Is the url in the correct form: \"<https/http>://<domain/ip>:<port>/status\" ?"

/-- The function `conn_tester`; `relay` and `health` are the outcomes of its
two GETs (the relay body is never read). -/
def conn_tester (env : Env) (_conf : configuration) (relay health : Get) : Outcome Unit :=
  let l0 := [LogLine.info "Starting connection tests."]
  match relay with
  | .failed err =>
    ⟨l0 ++ [.info ("Initial Syncthing relay server load failed!" ++ urlHint)], .panicked (.error err)⟩
  | .response status _ =>
    if status ≠ 200 then
      ⟨l0, .panicked (.message
        ("Syncthing relay server was reached but the HTTP status code was not 200!" ++ urlHint))⟩
    else
    let l1 := l0 ++ [.info "Syncthing relay connection check successful."]
    match health with
    | .failed err =>
      ⟨l1 ++ [.info ("Initial InfluxDB server load failed!" ++ urlHint)], .panicked (.error err)⟩
    | .response status body =>
      if status ≠ 200 then
        ⟨l1, .panicked (.message
          ("InfluxDB server was reached but the HTTP status code was not 200!" ++ urlHint))⟩
      else
      match body with
      | .error err =>
        ⟨l1 ++ [.error "InfluxDB connection test HTTP body reading error."], .panicked (.error err)⟩
      | .ok bytes =>
        match env.unmarshal bytes with
        | .error err =>
          ⟨l1 ++ [.error "InfluxDB connection test HTTP body unmarshaling error."],
            .panicked (.error err)⟩
        | .ok healthResponse =>
          match (healthResponse.index "status").assertString with
          | .panicked p => ⟨l1, .panicked p⟩
          | .returned status =>
            let l2 := l1 ++ (if status ≠ "pass" then
              [LogLine.error "InfluxDB health check was not a pass!"] else [])
            ⟨l2 ++ [.info "InfluxDB connection check successful."], .returned ()⟩

/-! ## The report task -/

/-- What one call of `reporter` does: its log lines, the requests it hands to
`client.Do`, and how it ends. -/
structure Report where
  logs : List LogLine
  posts : List Request
  exit : Exit Unit
  deriving DecidableEq, Repr

/-- The index expressions `s[i]` for the given indices, evaluated left to
right; the first one out of range panics. -/
def sliceIndices (s : List Value) : List Nat → Exit (List Value)
  | [] => .returned []
  | i :: is =>
    match sliceIndex s i with
    | .panicked p => .panicked p
    | .returned v =>
      match sliceIndices s is with
      | .panicked p => .panicked p
      | .returned vs => .returned (v :: vs)

/-- The format string of the Metric Line. -/
def lineFormat : String :=
  "%s,relay=%s bytesProxied=%v,uptime=%v,kbps10s=%v,kbps1m=%v,kbps5m=%v,kbps15m=%v,kbps30m=%v,kbps60m=%v,activeSessions=%v,connections=%v,pendingSessionKeys=%v,proxies=%v %d"

/-- The function `reporter`.  `relay` is the outcome of the GET on the relay,
`timestamp` the value of `time.Now().UnixNano()`, and `write` the outcome of
`client.Do(req)`; the status code of neither response is read. -/
def reporter (env : Env) (conf : configuration) (relay : Get) (timestamp : Int)
    (write : Get) : Report :=
  match relay with
  | .failed err =>
    ⟨[.error "Reporter failed fetch data from the relay!", .error err], [], .returned ()⟩
  | .response _ (.error err) =>
    ⟨[.error "Reporter failed to read HTTP body of the relay data!", .error err], [], .returned ()⟩
  | .response _ (.ok body) =>
    match env.unmarshal body with
    | .error err =>
      ⟨[.error "Reporter failed to unmarshal the relay data!", .error err], [], .returned ()⟩
    | .ok relayResponse =>
      let parameters := Values.Add [] "db" conf.influxdbDatabase
      match (relayResponse.index "kbps10s1m5m15m30m60m").assertSlice with
      | .panicked p => ⟨[], [], .panicked p⟩
      | .returned relayNetworkRates =>
        match sliceIndices relayNetworkRates [0, 1, 2, 3, 4, 5] with
        | .panicked p => ⟨[], [], .panicked p⟩
        | .returned rates =>
          let reqBody := Sprintf env.fmtFloat lineFormat
            ([.string conf.syncthingRelayName, .string conf.syncthingRelayName,
              relayResponse.index "bytesProxied", relayResponse.index "uptimeSeconds"] ++
             rates ++
             [relayResponse.index "numActiveSessions", relayResponse.index "numConnections",
              relayResponse.index "numPendingSessionKeys", relayResponse.index "numProxies",
              .int64 timestamp])
          let target := conf.influxdbUrl ++ "write?" ++ parameters.Encode
          -- http.NewRequest returns a nil request when the URL does not parse;
          -- its error is dropped and req.Header is dereferenced
          if env.urlParses target = false then ⟨[], [], .panicked .nilDereference⟩
          else
          let req : Request :=
            { method := "POST"
              url := target
              header := [("Authorization",
                "Token " ++ conf.influxdbUsername ++ ":" ++ conf.influxdbPassword)]
              body := reqBody }
          match write with
          | .failed err =>
            ⟨[.error "InfluxDB writing HTTP request failed!", .error err], [req], .returned ()⟩
          | .response _ resBody =>
            if conf.debug then
              let l := [LogLine.info ("InfluxDB request body: " ++ reqBody),
                LogLine.info ("InfluxDB full URL: " ++ conf.influxdbUrl ++ "write" ++ parameters.Encode)]
              match resBody with
              | .error err =>
                ⟨l ++ [.error "Failed to read InfluxDB response body for debugging purposes!",
                  .error err], [req], .returned ()⟩
              | .ok resBody =>
                ⟨l ++ [.info "Reporter was successful.",
                  .info ("InfluxDB write request response body:\n" ++ resBody)], [req], .returned ()⟩
            else ⟨[], [req], .returned ()⟩

/-! ## The ticker and the loop of `main` -/

/-- The constant `time.Second`, in nanoseconds. -/
def Second : Int := 1000000000

/-- Two-complement wrap-around of int64 arithmetic. -/
def wrapInt64 (x : Int) : Int :=
  (x + 2 ^ 63) % 2 ^ 64 - 2 ^ 63

/-- The conversion `time.Duration(f)` of a float64 to int64: the fraction is
discarded (truncation towards zero). -/
def durationOfFloat (env : Env) (f : ℚ) : Int :=
  let t := Int.tdiv f.num f.den
  if -(2 ^ 63) ≤ t ∧ t < 2 ^ 63 then t else env.convOverflow

/-- The period `main` passes to `time.NewTicker`:
`time.Duration(rateMultiplier) * time.Second`, in nanoseconds. -/
def tickerPeriod (env : Env) (conf : configuration) : Int :=
  wrapInt64 (durationOfFloat env conf.rateMultiplier * Second)

/-- The function `time.NewTicker`: it panics unless the period is positive. -/
def NewTicker (d : Int) : Exit Int :=
  if d ≤ 0 then .panicked .nonPositiveInterval else .returned d

/-- The two states of the loop of `main`. -/
inductive LoopState where
  | Running
  | Stopped
  deriving DecidableEq, Repr

/-- The case the `select` of `main` takes: a receive from `reporterTicker.C`
or a receive from `reporterTickerDone`. -/
inductive Event where
  | tick
  | shutdown
  deriving DecidableEq, Repr

/-- One pass of the `select`: the next state and the number of
`go reporter(...)` statements executed.  After `return` nothing runs. -/
def step : LoopState → Event → LoopState × Nat
  | .Running, .tick => (.Running, 1)
  | .Running, .shutdown => (.Stopped, 0)
  | .Stopped, _ => (.Stopped, 0)

/-- The loop over a sequence of events: the state reached and the number of
report tasks dispatched on the way. -/
def run : LoopState → List Event → LoopState × Nat
  | s, [] => (s, 0)
  | s, e :: es =>
    let r := step s e
    let rest := run r.1 es
    (rest.1, r.2 + rest.2)

/-- The function `main` up to the moment the events are used up: the log
lines of the main goroutine, and either a panic or the loop state reached
with the number of report tasks dispatched. -/
def main (env : Env) (flags : Flags) (relay health : Get) (events : List Event) :
    Outcome (LoopState × Nat) :=
  match configuration_builder env flags with
  | ⟨l0, .panicked p⟩ => ⟨l0, .panicked p⟩
  | ⟨l0, .returned globalConfiguration⟩ =>
    match conn_tester env globalConfiguration relay health with
    | ⟨l1, .panicked p⟩ => ⟨l0 ++ l1, .panicked p⟩
    | ⟨l1, .returned _⟩ =>
      match NewTicker (tickerPeriod env globalConfiguration) with
      | .panicked p => ⟨l0 ++ l1, .panicked p⟩
      | .returned _ =>
        let r := run .Running events
        ⟨l0 ++ l1 ++ (if r.1 = .Stopped then [LogLine.info "Shutting down reporter ticker."] else []),
          .returned r⟩

/-! ## Sample inputs

Concrete inputs at which the statements below are evaluated. -/

/-- A float64 renderer for the examples: the decimal digits of a whole
number, which is what `%v` prints for whole numbers of magnitude below 10^6. -/
def fmtWhole (q : ℚ) : String :=
  if q.den = 1 then toString q.num else "NaN"

/-- A relay status body with every field. -/
def fullBody : String :=
  "\x7b\"bytesProxied\":7,\"kbps10s1m5m15m30m60m\":[1,2,3,4,5,6],\"numActiveSessions\":2,\"numConnections\":3,\"numPendingSessionKeys\":0,\"numProxies\":1,\"uptimeSeconds\":60\x7d"

/-- The map `fullBody` decodes to. -/
def fullSnapshot : JsonMap :=
  [("bytesProxied", .float64 7),
   ("kbps10s1m5m15m30m60m",
     .slice [.float64 1, .float64 2, .float64 3, .float64 4, .float64 5, .float64 6]),
   ("numActiveSessions", .float64 2), ("numConnections", .float64 3),
   ("numPendingSessionKeys", .float64 0), ("numProxies", .float64 1),
   ("uptimeSeconds", .float64 60)]

/-- A relay status body without `bytesProxied` and with a string for `numProxies`. -/
def looseBody : String :=
  "\x7b\"kbps10s1m5m15m30m60m\":[1,2,3,4,5,6],\"numActiveSessions\":2,\"numConnections\":3,\"numPendingSessionKeys\":0,\"numProxies\":\"one\",\"uptimeSeconds\":60\x7d"

/-- The map `looseBody` decodes to. -/
def looseSnapshot : JsonMap :=
  [("kbps10s1m5m15m30m60m",
     .slice [.float64 1, .float64 2, .float64 3, .float64 4, .float64 5, .float64 6]),
   ("numActiveSessions", .float64 2), ("numConnections", .float64 3),
   ("numPendingSessionKeys", .float64 0), ("numProxies", .string "one"),
   ("uptimeSeconds", .float64 60)]

/-- A decoder for the examples.  It answers the bodies listed as
`json.Unmarshal` does: the JSON objects with their maps, `null` with no
error and a nil map, the HTML page with the syntax error of its first
character.  The statements below use it on these bodies only; any other body
is answered like the empty body. -/
def sampleUnmarshal (body : String) : Except String JsonMap :=
  if body = fullBody then .ok fullSnapshot
  else if body = looseBody then .ok looseSnapshot
  else if body = "\x7b\x7d" then .ok []
  else if body = "\x7b\"kbps10s1m5m15m30m60m\":\"fast\"\x7d" then
    .ok [("kbps10s1m5m15m30m60m", .string "fast")]
  else if body = "\x7b\"kbps10s1m5m15m30m60m\":[1,2,3]\x7d" then
    .ok [("kbps10s1m5m15m30m60m", .slice [.float64 1, .float64 2, .float64 3])]
  else if body = "\x7b\"status\":\"pass\"\x7d" then .ok [("status", .string "pass")]
  else if body = "\x7b\"status\":\"fail\"\x7d" then .ok [("status", .string "fail")]
  else if body = "\x7b\"status\":503\x7d" then .ok [("status", .float64 503)]
  else if body = "null" then .ok []
  else if body = "<html>Bad Gateway</html>" then
    .error "invalid character \x27<\x27 looking for beginning of value"
  else .error "unexpected end of JSON input"

/-- The environment of the examples: every URL parses, and a float64 out of
the int64 range converts to the least int64 (as on amd64). -/
def sampleEnv : Env :=
  { fmtFloat := fmtWhole
    unmarshal := sampleUnmarshal
    urlParses := fun _ => true
    convOverflow := -(2 ^ 63) }

/-- A configuration without credentials. -/
def sampleConf : configuration :=
  { syncthingRelayUrl := "http://relay:22070/status"
    syncthingRelayName := "r1"
    influxdbUrl := "http://db:8086/"
    influxdbDatabase := "relays"
    influxdbUsername := ""
    influxdbPassword := ""
    rateMultiplier := 1
    debug := false }

/-- The rate multiplier one half, `--rate-multiplier=0.5`. -/
def half : ℚ := ⟨1, 2, by decide, by decide⟩

/-- The rate multiplier three halves, `--rate-multiplier=1.5`. -/
def threeHalves : ℚ := ⟨3, 2, by decide, by decide⟩

/-- Flag values with every required flag given. -/
def sampleFlags : Flags :=
  { debug := false
    rateMultiplier := 1
    syncthingRelayUrl := "http://relay:22070/status"
    syncthingRelayName := "r1"
    influxdbUrl := "http://db:8086"
    influxdbDatabase := "relays"
    influxdbUsername := ""
    influxdbPassword := "" }

set_option maxRecDepth 20000

/-! ## Lemmas on `fmt.Sprintf` and the report task -/

theorem sprintfGo_verb (g : ℚ → String) (verb : Char) (rest : List Char) (a : Value)
    (args : List Value) (h : verb ≠ '%') :
    sprintfGo g ('%' :: verb :: rest) (a :: args) = printArg g verb a ++ sprintfGo g rest args := by
  rw [sprintfGo]
  · intro h1; exact h (by simpa using h1)

theorem sprintfGo_char (g : ℚ → String) (c : Char) (rest : List Char) (args : List Value)
    (h : c ≠ '%') :
    sprintfGo g (c :: rest) args = String.singleton c ++ sprintfGo g rest args := by
  rw [sprintfGo]
  all_goals (intros; simp_all)

theorem sprintfGo_text (g : ℚ → String) (text rest : List Char) (args : List Value)
    (h : '%' ∉ text) :
    sprintfGo g (text ++ rest) args = String.mk text ++ sprintfGo g rest args := by
  induction text with
  | nil => apply String.ext; simp
  | cons c cs ih =>
    have hc : c ≠ '%' := fun e => h (by simp [e])
    have hcs : '%' ∉ cs := fun e => h (by simp [e])
    rw [List.cons_append, sprintfGo_char g c _ args hc, ih hcs]
    apply String.ext; simp [String.data_append, String.singleton]

theorem printArg_v (g : ℚ → String) (v : Value) : printArg g 'v' v = fmtV g v := by
  simp [printArg]

theorem printArg_s (g : ℚ → String) (s : String) : printArg g 's' (.string s) = s := by
  simp [printArg]

theorem printArg_d (g : ℚ → String) (i : Int) : printArg g 'd' (.int64 i) = toString i := by
  simp [printArg]

theorem lineFormat_data : lineFormat.data =
    '%' :: 's' :: (",relay=".data ++ ('%' :: 's' :: (" bytesProxied=".data ++
    ('%' :: 'v' :: (",uptime=".data ++ ('%' :: 'v' :: (",kbps10s=".data ++
    ('%' :: 'v' :: (",kbps1m=".data ++ ('%' :: 'v' :: (",kbps5m=".data ++
    ('%' :: 'v' :: (",kbps15m=".data ++ ('%' :: 'v' :: (",kbps30m=".data ++
    ('%' :: 'v' :: (",kbps60m=".data ++ ('%' :: 'v' :: (",activeSessions=".data ++
    ('%' :: 'v' :: (",connections=".data ++ ('%' :: 'v' :: (",pendingSessionKeys=".data ++
    ('%' :: 'v' :: (",proxies=".data ++ ('%' :: 'v' :: (" ".data ++
    ('%' :: 'd' :: [])))))))))))))))))))))))))))) := by
  rfl

theorem sprintf_line (g : ℚ → String) (n : String) (v1 v2 r0 r1 r2 r3 r4 r5 v3 v4 v5 v6 : Value) (t : Int) :
    Sprintf g lineFormat [.string n, .string n, v1, v2, r0, r1, r2, r3, r4, r5, v3, v4, v5, v6, .int64 t] =
      n ++ ",relay=" ++ n ++ " bytesProxied=" ++ fmtV g v1 ++ ",uptime=" ++ fmtV g v2 ++
      ",kbps10s=" ++ fmtV g r0 ++ ",kbps1m=" ++ fmtV g r1 ++ ",kbps5m=" ++ fmtV g r2 ++
      ",kbps15m=" ++ fmtV g r3 ++ ",kbps30m=" ++ fmtV g r4 ++ ",kbps60m=" ++ fmtV g r5 ++
      ",activeSessions=" ++ fmtV g v3 ++ ",connections=" ++ fmtV g v4 ++
      ",pendingSessionKeys=" ++ fmtV g v5 ++ ",proxies=" ++ fmtV g v6 ++ " " ++ toString t := by
  unfold Sprintf
  rw [lineFormat_data]
  simp (disch := decide) only [sprintfGo_verb, sprintfGo_text, printArg_v, printArg_s, printArg_d]
  rw [sprintfGo]
  simp only [String.append_assoc, String.append_empty]

theorem sliceIndices_six (r0 r1 r2 r3 r4 r5 : Value) (more : List Value) :
    sliceIndices (r0 :: r1 :: r2 :: r3 :: r4 :: r5 :: more) [0, 1, 2, 3, 4, 5] =
      .returned [r0, r1, r2, r3, r4, r5] := by
  rfl

theorem encode_db (db : String) :
    Values.Encode (Values.Add [] "db" db) = "db=" ++ QueryEscape db := by
  have h : QueryEscape "db" = "db" := by decide
  simp [Values.Encode, Values.Add, Values.pairs, h, String.intercalate]
  rfl

theorem reporter_posts (env : Env) (conf : configuration) (status : Int) (body : String)
    (relayResponse : JsonMap) (r0 r1 r2 r3 r4 r5 : Value) (more : List Value) (timestamp : Int)
    (write : Get) (hdec : env.unmarshal body = .ok relayResponse)
    (hrates : relayResponse.index "kbps10s1m5m15m30m60m" =
      .slice (r0 :: r1 :: r2 :: r3 :: r4 :: r5 :: more)) :
    (reporter env conf (.response status (.ok body)) timestamp write).posts =
      if env.urlParses (conf.influxdbUrl ++ "write?" ++ Values.Encode (Values.Add [] "db" conf.influxdbDatabase)) = true then
        [{ method := "POST"
           url := conf.influxdbUrl ++ "write?" ++ Values.Encode (Values.Add [] "db" conf.influxdbDatabase)
           header := [("Authorization", "Token " ++ conf.influxdbUsername ++ ":" ++ conf.influxdbPassword)]
           body := Sprintf env.fmtFloat lineFormat
             [.string conf.syncthingRelayName, .string conf.syncthingRelayName,
              relayResponse.index "bytesProxied", relayResponse.index "uptimeSeconds",
              r0, r1, r2, r3, r4, r5,
              relayResponse.index "numActiveSessions", relayResponse.index "numConnections",
              relayResponse.index "numPendingSessionKeys", relayResponse.index "numProxies",
              .int64 timestamp] }]
      else [] := by
  simp only [reporter, hdec, hrates, Value.assertSlice, sliceIndices_six]
  cases hu : env.urlParses (conf.influxdbUrl ++ "write?" ++ Values.Encode (Values.Add [] "db" conf.influxdbDatabase))
  · simp
  · cases write with
    | failed err => simp
    | response st resBody =>
      cases hd : conf.debug
      · simp
      · cases resBody <;> simp

theorem reporter_exit (env : Env) (conf : configuration) (status : Int) (body : String)
    (relayResponse : JsonMap) (r0 r1 r2 r3 r4 r5 : Value) (more : List Value) (timestamp : Int)
    (write : Get) (hdec : env.unmarshal body = .ok relayResponse)
    (hrates : relayResponse.index "kbps10s1m5m15m30m60m" =
      .slice (r0 :: r1 :: r2 :: r3 :: r4 :: r5 :: more)) :
    (reporter env conf (.response status (.ok body)) timestamp write).exit =
      if env.urlParses (conf.influxdbUrl ++ "write?" ++
          Values.Encode (Values.Add [] "db" conf.influxdbDatabase)) = true then
        .returned ()
      else .panicked .nilDereference := by
  simp only [reporter, hdec, hrates, Value.assertSlice, sliceIndices_six]
  cases hu : env.urlParses (conf.influxdbUrl ++ "write?" ++ Values.Encode (Values.Add [] "db" conf.influxdbDatabase))
  · simp
  · cases write with
    | failed err => simp
    | response st resBody =>
      cases hd : conf.debug
      · simp
      · cases resBody <;> simp

/-- C6. For every relay name, every decoded snapshot whose rate array has six
elements and every timestamp, the body of the request `reporter` builds is
the relay name, `,relay=`, the relay name, and the twelve fields in the
documented order, each value rendered by `%v` from `bytesProxied`,
`uptimeSeconds`, rate elements 0 to 5, `numActiveSessions`,
`numConnections`, `numPendingSessionKeys`, `numProxies`, then a space and
the timestamp.  The line depends on the name, the snapshot and the timestamp
only.  (The request that carries it is handed to the client when the write
URL parses.) -/
theorem reporter_metric_line (env : Env) (conf : configuration) (status : Int) (body : String)
    (relayResponse : JsonMap) (r0 r1 r2 r3 r4 r5 : Value) (timestamp : Int) (write : Get)
    (hdec : env.unmarshal body = .ok relayResponse)
    (hrates : relayResponse.index "kbps10s1m5m15m30m60m" = .slice [r0, r1, r2, r3, r4, r5]) :
    (reporter env conf (.response status (.ok body)) timestamp write).posts.map Request.body =
      if env.urlParses (conf.influxdbUrl ++ "write?" ++
          Values.Encode (Values.Add [] "db" conf.influxdbDatabase)) = true then
        [conf.syncthingRelayName ++ ",relay=" ++ conf.syncthingRelayName ++
          " bytesProxied=" ++ fmtV env.fmtFloat (relayResponse.index "bytesProxied") ++
          ",uptime=" ++ fmtV env.fmtFloat (relayResponse.index "uptimeSeconds") ++
          ",kbps10s=" ++ fmtV env.fmtFloat r0 ++ ",kbps1m=" ++ fmtV env.fmtFloat r1 ++
          ",kbps5m=" ++ fmtV env.fmtFloat r2 ++ ",kbps15m=" ++ fmtV env.fmtFloat r3 ++
          ",kbps30m=" ++ fmtV env.fmtFloat r4 ++ ",kbps60m=" ++ fmtV env.fmtFloat r5 ++
          ",activeSessions=" ++ fmtV env.fmtFloat (relayResponse.index "numActiveSessions") ++
          ",connections=" ++ fmtV env.fmtFloat (relayResponse.index "numConnections") ++
          ",pendingSessionKeys=" ++
            fmtV env.fmtFloat (relayResponse.index "numPendingSessionKeys") ++
          ",proxies=" ++ fmtV env.fmtFloat (relayResponse.index "numProxies") ++
          " " ++ toString timestamp]
      else [] := by
  rw [reporter_posts env conf status body relayResponse r0 r1 r2 r3 r4 r5 [] timestamp write
    hdec hrates]
  split
  · simp only [List.map_cons, List.map_nil, sprintf_line]
  · rfl

/-- C6 at the sample snapshot: the line that is sent. -/
theorem reporter_metric_line_witness :
    (reporter sampleEnv sampleConf (.response 200 (.ok fullBody)) 17
        (.response 204 (.ok ""))).posts.map Request.body =
      ["r1,relay=r1 bytesProxied=7,uptime=60,kbps10s=1,kbps1m=2,kbps5m=3,kbps15m=4,kbps30m=5,kbps60m=6,activeSessions=2,connections=3,pendingSessionKeys=0,proxies=1 17"] := by
  rw [reporter_metric_line sampleEnv sampleConf 200 fullBody fullSnapshot
    (.float64 1) (.float64 2) (.float64 3) (.float64 4) (.float64 5) (.float64 6) 17
    (.response 204 (.ok "")) rfl rfl]
  decide

/-- C1 at three bodies that decode: no rate key, a rate key that is not an
array, and a rate array of three elements.  In each case `reporter` sends
nothing and does not return: it panics. -/
theorem reporter_bad_rates_panic :
    reporter sampleEnv sampleConf (.response 200 (.ok "\x7b\x7d")) 17
        (.response 204 (.ok "")) = ⟨[], [], .panicked .interfaceConversion⟩ ∧
    reporter sampleEnv sampleConf
        (.response 200 (.ok "\x7b\"kbps10s1m5m15m30m60m\":\"fast\"\x7d")) 17
        (.response 204 (.ok "")) = ⟨[], [], .panicked .interfaceConversion⟩ ∧
    reporter sampleEnv sampleConf
        (.response 200 (.ok "\x7b\"kbps10s1m5m15m30m60m\":[1,2,3]\x7d")) 17
        (.response 204 (.ok "")) = ⟨[], [], .panicked (.indexOutOfRange 3 3)⟩ := by
  refine ⟨?_, ?_, ?_⟩ <;> rfl

theorem sliceIndices_short (rates : List Value) (h : rates.length < 6) :
    sliceIndices rates [0, 1, 2, 3, 4, 5] =
      .panicked (.indexOutOfRange rates.length rates.length) := by
  rcases rates with _ | ⟨a, _ | ⟨b, _ | ⟨c, _ | ⟨d, _ | ⟨e, _ | ⟨f, t⟩⟩⟩⟩⟩⟩
  · rfl
  · rfl
  · rfl
  · rfl
  · rfl
  · rfl
  · simp only [List.length_cons] at h; omega

/-- Whenever the decoded response has no rate array of at least six elements
(the key is absent, its value is not an array, or the array is shorter),
`reporter` panics before it logs or sends anything. -/
theorem reporter_panics_on_bad_rates (env : Env) (conf : configuration) (status : Int)
    (body : String) (relayResponse : JsonMap) (timestamp : Int) (write : Get)
    (hdec : env.unmarshal body = .ok relayResponse)
    (hbad : ∀ rates, relayResponse.index "kbps10s1m5m15m30m60m" = .slice rates →
      rates.length < 6) :
    ∃ p, reporter env conf (.response status (.ok body)) timestamp write =
      ⟨[], [], .panicked p⟩ := by
  cases hv : relayResponse.index "kbps10s1m5m15m30m60m" with
  | slice rates =>
    refine ⟨.indexOutOfRange rates.length rates.length, ?_⟩
    simp [reporter, hdec, hv, Value.assertSlice, sliceIndices_short rates (hbad rates hv)]
  | nil => exact ⟨.interfaceConversion, by simp [reporter, hdec, hv, Value.assertSlice]⟩
  | bool b => exact ⟨.interfaceConversion, by simp [reporter, hdec, hv, Value.assertSlice]⟩
  | float64 f => exact ⟨.interfaceConversion, by simp [reporter, hdec, hv, Value.assertSlice]⟩
  | string s => exact ⟨.interfaceConversion, by simp [reporter, hdec, hv, Value.assertSlice]⟩
  | int64 i => exact ⟨.interfaceConversion, by simp [reporter, hdec, hv, Value.assertSlice]⟩
  | map es => exact ⟨.interfaceConversion, by simp [reporter, hdec, hv, Value.assertSlice]⟩

/-- The panic on a missing rate array, at the empty JSON object. -/
theorem reporter_panics_on_bad_rates_witness :
    ∃ p, reporter sampleEnv sampleConf (.response 200 (.ok "\x7b\x7d")) 17
      (.response 204 (.ok "")) = ⟨[], [], .panicked p⟩ :=
  reporter_panics_on_bad_rates sampleEnv sampleConf 200 "\x7b\x7d" [] 17
    (.response 204 (.ok "")) rfl (fun rates h => by simp [JsonMap.index] at h)

/-- C2, as amended.  A transport error of the GET makes `reporter` log two
error lines, return, and send nothing; so do a body that cannot be read and
a body on which `json.Unmarshal` returns an error.  The status code is never
read: responses that differ in their status only are handled alike. -/
theorem reporter_fetch_failure (env : Env) (conf : configuration) (timestamp : Int)
    (write : Get) :
    (∀ err, reporter env conf (.failed err) timestamp write =
      ⟨[.error "Reporter failed fetch data from the relay!", .error err], [], .returned ()⟩) ∧
    (∀ status err, reporter env conf (.response status (.error err)) timestamp write =
      ⟨[.error "Reporter failed to read HTTP body of the relay data!", .error err], [],
        .returned ()⟩) ∧
    (∀ status body err, env.unmarshal body = .error err →
      reporter env conf (.response status (.ok body)) timestamp write =
        ⟨[.error "Reporter failed to unmarshal the relay data!", .error err], [],
          .returned ()⟩) ∧
    (∀ status status' body, reporter env conf (.response status body) timestamp write =
      reporter env conf (.response status' body) timestamp write) := by
  refine ⟨fun _ => rfl, fun _ _ => rfl, fun status body err h => ?_, fun status status' body => ?_⟩
  · simp [reporter, h]
  · cases body <;> rfl

/-- C2 at a body that is not JSON, under status 502. -/
theorem reporter_fetch_failure_witness :
    reporter sampleEnv sampleConf (.response 502 (.ok "<html>Bad Gateway</html>")) 17
        (.response 204 (.ok "")) =
      ⟨[.error "Reporter failed to unmarshal the relay data!",
        .error "invalid character \x27<\x27 looking for beginning of value"], [],
        .returned ()⟩ :=
  (reporter_fetch_failure sampleEnv sampleConf 17 (.response 204 (.ok ""))).2.2.1
    502 "<html>Bad Gateway</html>" "invalid character \x27<\x27 looking for beginning of value"
    rfl

/-- C2 refuted: a response with status 500 and a complete body is decoded and
its Metric Line is posted to the database. -/
theorem reporter_posts_on_status_500 :
    (reporter sampleEnv sampleConf (.response 500 (.ok fullBody)) 17
        (.response 204 (.ok ""))).posts.map Request.url = ["http://db:8086/write?db=relays"] := by
  rw [reporter_posts sampleEnv sampleConf 500 fullBody fullSnapshot
    (.float64 1) (.float64 2) (.float64 3) (.float64 4) (.float64 5) (.float64 6) [] 17
    (.response 204 (.ok "")) rfl rfl]
  decide

/-- C3, as amended.  When the decoded response has a rate array of at least
six elements and the write URL parses, `reporter` does not abort whatever
the scalar fields are: it sends one Metric Line and returns.  In that line a
scalar that is missing or null is written `<nil>` and a string is written as
its text. -/
theorem reporter_scalars_not_validated (env : Env) (conf : configuration) (status : Int)
    (body : String) (relayResponse : JsonMap) (r0 r1 r2 r3 r4 r5 : Value) (more : List Value)
    (timestamp : Int) (write : Get)
    (hdec : env.unmarshal body = .ok relayResponse)
    (hrates : relayResponse.index "kbps10s1m5m15m30m60m" =
      .slice (r0 :: r1 :: r2 :: r3 :: r4 :: r5 :: more))
    (hurl : env.urlParses (conf.influxdbUrl ++ "write?" ++
      Values.Encode (Values.Add [] "db" conf.influxdbDatabase)) = true) :
    (reporter env conf (.response status (.ok body)) timestamp write).posts.map Request.body =
      [conf.syncthingRelayName ++ ",relay=" ++ conf.syncthingRelayName ++
        " bytesProxied=" ++ fmtV env.fmtFloat (relayResponse.index "bytesProxied") ++
        ",uptime=" ++ fmtV env.fmtFloat (relayResponse.index "uptimeSeconds") ++
        ",kbps10s=" ++ fmtV env.fmtFloat r0 ++ ",kbps1m=" ++ fmtV env.fmtFloat r1 ++
        ",kbps5m=" ++ fmtV env.fmtFloat r2 ++ ",kbps15m=" ++ fmtV env.fmtFloat r3 ++
        ",kbps30m=" ++ fmtV env.fmtFloat r4 ++ ",kbps60m=" ++ fmtV env.fmtFloat r5 ++
        ",activeSessions=" ++ fmtV env.fmtFloat (relayResponse.index "numActiveSessions") ++
        ",connections=" ++ fmtV env.fmtFloat (relayResponse.index "numConnections") ++
        ",pendingSessionKeys=" ++
          fmtV env.fmtFloat (relayResponse.index "numPendingSessionKeys") ++
        ",proxies=" ++ fmtV env.fmtFloat (relayResponse.index "numProxies") ++
        " " ++ toString timestamp] ∧
    (reporter env conf (.response status (.ok body)) timestamp write).exit = .returned () ∧
    (∀ key, relayResponse.lookup key = none →
      fmtV env.fmtFloat (relayResponse.index key) = "<nil>") ∧
    (∀ key, relayResponse.lookup key = some .nil →
      fmtV env.fmtFloat (relayResponse.index key) = "<nil>") ∧
    (∀ key s, relayResponse.lookup key = some (.string s) →
      fmtV env.fmtFloat (relayResponse.index key) = s) := by
  refine ⟨?_, ?_, ?_, ?_, ?_⟩
  · rw [reporter_posts env conf status body relayResponse r0 r1 r2 r3 r4 r5 more timestamp write
      hdec hrates, if_pos hurl]
    simp only [List.map_cons, List.map_nil, sprintf_line]
  · rw [reporter_exit env conf status body relayResponse r0 r1 r2 r3 r4 r5 more timestamp write
      hdec hrates, if_pos hurl]
  · intro key h
    simp [JsonMap.index, h, fmtV]
  · intro key h
    simp [JsonMap.index, h, fmtV]
  · intro key s h
    simp [JsonMap.index, h, fmtV]

/-- C3 at a snapshot without `bytesProxied` and with a string for `numProxies`. -/
theorem reporter_scalars_not_validated_witness :
    (reporter sampleEnv sampleConf (.response 200 (.ok looseBody)) 17
        (.response 204 (.ok ""))).exit = .returned () ∧
    fmtV sampleEnv.fmtFloat (looseSnapshot.index "bytesProxied") = "<nil>" ∧
    fmtV sampleEnv.fmtFloat (looseSnapshot.index "numProxies") = "one" :=
  have h := reporter_scalars_not_validated sampleEnv sampleConf 200 looseBody looseSnapshot
    (.float64 1) (.float64 2) (.float64 3) (.float64 4) (.float64 5) (.float64 6) [] 17
    (.response 204 (.ok "")) rfl rfl rfl
  ⟨h.2.1, h.2.2.1 "bytesProxied" rfl, h.2.2.2.2 "numProxies" "one" rfl⟩

/-- C3 refuted: the decoded response has no `bytesProxied` and a string where
`numProxies` should be a number, and `reporter` still sends a Metric Line. -/
theorem reporter_sends_with_missing_scalar :
    sampleEnv.unmarshal looseBody = .ok looseSnapshot ∧
    looseSnapshot.lookup "bytesProxied" = none ∧
    looseSnapshot.lookup "numProxies" = some (.string "one") ∧
    (reporter sampleEnv sampleConf (.response 200 (.ok looseBody)) 17
        (.response 204 (.ok ""))).posts.map Request.body =
      ["r1,relay=r1 bytesProxied=<nil>,uptime=60,kbps10s=1,kbps1m=2,kbps5m=3,kbps15m=4,kbps30m=5,kbps60m=6,activeSessions=2,connections=3,pendingSessionKeys=0,proxies=one 17"] := by
  refine ⟨rfl, rfl, rfl, ?_⟩
  rw [reporter_posts sampleEnv sampleConf 200 looseBody looseSnapshot
    (.float64 1) (.float64 2) (.float64 3) (.float64 4) (.float64 5) (.float64 6) [] 17
    (.response 204 (.ok "")) rfl rfl]
  simp only [sprintf_line]
  decide

theorem flatMap_escapeChar (cs : List Char) (h : ∀ c ∈ cs, shouldEscape c = false) :
    cs.flatMap escapeChar = cs := by
  induction cs with
  | nil => rfl
  | cons c cs ih =>
    have hc : shouldEscape c = false := h c (by simp)
    have hcs : ∀ d ∈ cs, shouldEscape d = false := fun d hd => h d (by simp [hd])
    simp [List.flatMap_cons, escapeChar, hc, ih hcs]

theorem queryEscape_unreserved (s : String) (h : ∀ c ∈ s.data, shouldEscape c = false) :
    QueryEscape s = s := by
  apply String.ext
  simp [QueryEscape, flatMap_escapeChar s.data h]

theorem write_target (conf : configuration) :
    conf.influxdbUrl ++ "write?" ++ Values.Encode (Values.Add [] "db" conf.influxdbDatabase) =
      conf.influxdbUrl ++ "write?db=" ++ QueryEscape conf.influxdbDatabase := by
  rw [encode_db]
  apply String.ext
  simp only [String.data_append, List.append_assoc]
  rfl

/-- C9, as amended.  Every request `reporter` hands to the HTTP client is a
POST to `influxdbUrl ++ "write?db="` followed by the database name
percent-encoded as a query component, and its only header is
`Authorization: Token username:password`; with both credentials empty the
value is `Token :`.  A database name made of letters, digits, `-`, `_`, `.`
and `~` only is its own encoding, so for such a name the target is
`influxdbUrl ++ "write?db=" ++ influxdbDatabase`. -/
theorem reporter_write_request (env : Env) (conf : configuration) (relay : Get)
    (timestamp : Int) (write : Get) (r : Request)
    (hr : r ∈ (reporter env conf relay timestamp write).posts) :
    r.method = "POST" ∧
    r.url = conf.influxdbUrl ++ "write?db=" ++ QueryEscape conf.influxdbDatabase ∧
    r.header =
      [("Authorization", "Token " ++ conf.influxdbUsername ++ ":" ++ conf.influxdbPassword)] ∧
    (conf.influxdbUsername = "" → conf.influxdbPassword = "" →
      r.header = [("Authorization", "Token :")]) ∧
    ((∀ c ∈ conf.influxdbDatabase.data, shouldEscape c = false) →
      r.url = conf.influxdbUrl ++ "write?db=" ++ conf.influxdbDatabase) := by
  have key : r.method = "POST" ∧
      r.url = conf.influxdbUrl ++ "write?db=" ++ QueryEscape conf.influxdbDatabase ∧
      r.header =
        [("Authorization", "Token " ++ conf.influxdbUsername ++ ":" ++ conf.influxdbPassword)] := by
    rw [← write_target]
    cases relay with
    | failed err => simp [reporter] at hr
    | response status body =>
      cases body with
      | error err => simp [reporter] at hr
      | ok bytes =>
        cases hdec : env.unmarshal bytes with
        | error err => simp [reporter, hdec] at hr
        | ok m =>
          cases hs : (m.index "kbps10s1m5m15m30m60m").assertSlice with
          | panicked p => simp [reporter, hdec, hs] at hr
          | returned rates =>
            cases hi : sliceIndices rates [0, 1, 2, 3, 4, 5] with
            | panicked p => simp [reporter, hdec, hs, hi] at hr
            | returned vs =>
              cases hu : env.urlParses (conf.influxdbUrl ++ "write?" ++
                Values.Encode (Values.Add [] "db" conf.influxdbDatabase)) with
              | false => simp [reporter, hdec, hs, hi, hu] at hr
              | true =>
                cases write with
                | failed err =>
                  simp [reporter, hdec, hs, hi, hu] at hr
                  subst hr
                  exact ⟨rfl, rfl, rfl⟩
                | response st resBody =>
                  cases hd : conf.debug with
                  | false =>
                    simp [reporter, hdec, hs, hi, hu, hd] at hr
                    subst hr
                    exact ⟨rfl, rfl, rfl⟩
                  | true =>
                    cases resBody with
                    | error err =>
                      simp [reporter, hdec, hs, hi, hu, hd] at hr
                      subst hr
                      exact ⟨rfl, rfl, rfl⟩
                    | ok resText =>
                      simp [reporter, hdec, hs, hi, hu, hd] at hr
                      subst hr
                      exact ⟨rfl, rfl, rfl⟩
  refine ⟨key.1, key.2.1, key.2.2, ?_, ?_⟩
  · intro hu hp
    rw [key.2.2, hu, hp]
    rfl
  · intro h
    rw [key.2.1, queryEscape_unreserved _ h]

/-- C9 at the sample configuration, which has no credentials. -/
theorem reporter_write_request_witness :
    (⟨"POST", "http://db:8086/write?db=relays", [("Authorization", "Token :")],
        "r1,relay=r1 bytesProxied=7,uptime=60,kbps10s=1,kbps1m=2,kbps5m=3,kbps15m=4,kbps30m=5,kbps60m=6,activeSessions=2,connections=3,pendingSessionKeys=0,proxies=1 17"⟩ : Request) ∈
      (reporter sampleEnv sampleConf (.response 200 (.ok fullBody)) 17
        (.failed "connection refused")).posts ∧
    "http://db:8086/write?db=relays" =
      sampleConf.influxdbUrl ++ "write?db=" ++ sampleConf.influxdbDatabase :=
  have hr : (⟨"POST", "http://db:8086/write?db=relays", [("Authorization", "Token :")],
        "r1,relay=r1 bytesProxied=7,uptime=60,kbps10s=1,kbps1m=2,kbps5m=3,kbps15m=4,kbps30m=5,kbps60m=6,activeSessions=2,connections=3,pendingSessionKeys=0,proxies=1 17"⟩ : Request) ∈
      (reporter sampleEnv sampleConf (.response 200 (.ok fullBody)) 17
        (.failed "connection refused")).posts := by decide
  ⟨hr, (reporter_write_request sampleEnv sampleConf (.response 200 (.ok fullBody)) 17
    (.failed "connection refused") _ hr).2.2.2.2 (by decide)⟩

/-- C9 refuted: for the database name `my db` the target is not
`influxdbUrl ++ "write?db=" ++ influxdbDatabase`; the space is sent as `+`. -/
theorem reporter_target_is_escaped :
    (reporter sampleEnv { sampleConf with influxdbDatabase := "my db" }
        (.response 200 (.ok fullBody)) 17 (.response 204 (.ok ""))).posts.map Request.url =
      ["http://db:8086/write?db=my+db"] ∧
    "http://db:8086/write?db=my+db" ≠ sampleConf.influxdbUrl ++ "write?db=" ++ "my db" := by
  refine ⟨?_, by decide⟩
  rw [reporter_posts sampleEnv _ 200 fullBody fullSnapshot
    (.float64 1) (.float64 2) (.float64 3) (.float64 4) (.float64 5) (.float64 6) [] 17
    (.response 204 (.ok "")) rfl rfl]
  decide

/-! ## `configuration_builder` -/

theorem configuration_builder_returned (env : Env) (flags : Flags) (conf : configuration)
    (h : (configuration_builder env flags).exit = .returned conf) :
    ∃ last, flags.influxdbUrl.data.getLast? = some last ∧
      conf.influxdbUrl =
        (if last ≠ '/' then flags.influxdbUrl ++ "/" else flags.influxdbUrl) ∧
      flags.syncthingRelayUrl ≠ "" ∧ flags.influxdbDatabase ≠ "" := by
  unfold configuration_builder at h
  cases hl : flags.influxdbUrl.data.getLast? with
  | none => simp [hl] at h
  | some last =>
    refine ⟨last, rfl, ?_⟩
    simp only [hl] at h
    by_cases h1 : flags.syncthingRelayUrl = ""
    · simp [h1] at h
    · by_cases h3 : flags.influxdbDatabase = ""
      · by_cases hs : last = '/'
        · by_cases h2 : flags.influxdbUrl = "" <;> simp [h1, h2, h3, hs] at h
        · by_cases h2 : flags.influxdbUrl ++ "/" = "" <;> simp [h1, h2, h3, hs] at h
      · by_cases hs : last = '/'
        · by_cases h2 : flags.influxdbUrl = ""
          · simp [h1, h2, h3, hs] at h
          · simp [h1, h2, h3, hs] at h
            subst h
            simp [hs, h1, h3]
        · by_cases h2 : flags.influxdbUrl ++ "/" = ""
          · simp [h1, h2, h3, hs] at h
          · simp [h1, h2, h3, hs] at h
            subst h
            simp [hs, h1, h3]

theorem not_two_slashes_of_ne (init : List Char) (last : Char) (h : last ≠ '/') :
    ¬ ['/', '/'] <:+ init ++ [last] ++ ['/'] := by
  rintro ⟨t, ht⟩
  have h1 : (t ++ ['/']) ++ ['/'] = (init ++ [last]) ++ ['/'] := by simpa using ht
  have h2 : t ++ ['/'] = init ++ [last] := List.append_cancel_right h1
  have h3 := (List.append_inj' h2 rfl).2
  exact h (by simpa using h3.symm)

/-- C7, as amended.  For every flag input that `configuration_builder`
accepts, the stored `influxdbUrl` is the input itself when the input ends
with `/`, and the input with one `/` appended when it does not; so the
stored value ends with `/`, and when the input does not end with `//` the
stored value does not either: its trailing `/` is exactly one. -/
theorem influxdbUrl_ends_with_slash (env : Env) (flags : Flags) (conf : configuration)
    (h : (configuration_builder env flags).exit = .returned conf) :
    (['/'] <:+ flags.influxdbUrl.data → conf.influxdbUrl = flags.influxdbUrl) ∧
    (¬ ['/'] <:+ flags.influxdbUrl.data → conf.influxdbUrl = flags.influxdbUrl ++ "/") ∧
    ['/'] <:+ conf.influxdbUrl.data ∧
    (¬ ['/', '/'] <:+ flags.influxdbUrl.data → ¬ ['/', '/'] <:+ conf.influxdbUrl.data) := by
  obtain ⟨last, hl, hurl, -, -⟩ := configuration_builder_returned env flags conf h
  have hd : flags.influxdbUrl.data.dropLast ++ [last] = flags.influxdbUrl.data :=
    List.dropLast_append_getLast? last (by simp [hl])
  by_cases hs : last = '/'
  · have hc : conf.influxdbUrl = flags.influxdbUrl := by simp [hurl, hs]
    have hsuf : ['/'] <:+ flags.influxdbUrl.data :=
      ⟨flags.influxdbUrl.data.dropLast, by rw [← hs]; exact hd⟩
    rw [hc]
    exact ⟨fun _ => rfl, fun hn => absurd hsuf hn, hsuf, fun hn => hn⟩
  · have hc : conf.influxdbUrl = flags.influxdbUrl ++ "/" := by simp [hurl, hs]
    have hdata : conf.influxdbUrl.data = flags.influxdbUrl.data.dropLast ++ [last] ++ ['/'] := by
      rw [hc, String.data_append, hd]
    have hnsuf : ¬ ['/'] <:+ flags.influxdbUrl.data := by
      rintro ⟨t, ht⟩
      rw [← hd] at ht
      have h3 := (List.append_inj' ht rfl).2
      exact hs (by simpa using h3.symm)
    refine ⟨fun hp => absurd hp hnsuf, fun _ => hc, ?_, fun _ => ?_⟩
    · rw [hdata]; exact ⟨_, rfl⟩
    · rw [hdata]; exact not_two_slashes_of_ne _ last hs

/-- C7 at an input without a trailing slash, where one is appended, and at an
input with one, which is kept. -/
theorem influxdbUrl_ends_with_slash_witness :
    ((configuration_builder sampleEnv sampleFlags).exit = .returned sampleConf ∧
      sampleConf.influxdbUrl = sampleFlags.influxdbUrl ++ "/" ∧
      ['/'] <:+ "http://db:8086/".data ∧ ¬ ['/', '/'] <:+ "http://db:8086/".data) ∧
    ((configuration_builder sampleEnv
        { sampleFlags with influxdbUrl := "http://db:8086/" }).exit = .returned sampleConf ∧
      sampleConf.influxdbUrl = "http://db:8086/") :=
  have h := influxdbUrl_ends_with_slash sampleEnv sampleFlags sampleConf rfl
  have h' := influxdbUrl_ends_with_slash sampleEnv
    { sampleFlags with influxdbUrl := "http://db:8086/" } sampleConf rfl
  ⟨⟨rfl, h.2.1 (by decide), h.2.2.1, h.2.2.2 (by decide)⟩, rfl, h'.1 (by decide)⟩

/-- C7 refuted: the input `http://db:8086//` is accepted and stored as it is,
with two trailing slashes. -/
theorem influxdbUrl_keeps_two_slashes :
    (configuration_builder sampleEnv { sampleFlags with influxdbUrl := "http://db:8086//" }).exit =
      .returned { sampleConf with influxdbUrl := "http://db:8086//" } ∧
    ['/', '/'] <:+ "http://db:8086//".data := by
  refine ⟨rfl, by decide⟩

/-- C8 at absent `--influxdb-url` (the flag default `""`), every other flag
given: `configuration_builder` stops with the runtime error of indexing an
empty string, not with the diagnostic of the parameter. -/
theorem configuration_builder_empty_influxdbUrl :
    configuration_builder sampleEnv { sampleFlags with influxdbUrl := "" } =
      ⟨[], .panicked (.indexOutOfRange (-1) 0)⟩ ∧
    (configuration_builder sampleEnv { sampleFlags with influxdbUrl := "" }).exit ≠
      .panicked (.message "No InfluxDB URL found! Set with the --influxdb-url= argument.") := by
  refine ⟨rfl, by decide⟩

theorem string_eq_empty_iff (s : String) : s = "" ↔ s.data = [] := by
  constructor
  · intro h; rw [h]
  · intro h; exact String.ext h

/-- How `configuration_builder` ends, for all flag values: an empty
`--influxdb-url` is a runtime index error, then an empty `--relay-url` and an
empty `--influxdb-database` give their diagnostics, and otherwise the
configuration is returned with the URL normalised.  The diagnostic for the
InfluxDB URL is never the outcome. -/
theorem configuration_builder_exit (env : Env) (flags : Flags) :
    (configuration_builder env flags).exit =
      (if flags.influxdbUrl = "" then .panicked (.indexOutOfRange (-1) 0)
       else if flags.syncthingRelayUrl = "" then
         .panicked (.message "No Syncthing relay URL found! Set with the --relay-url= argument.")
       else if flags.influxdbDatabase = "" then
         .panicked (.message
           "No InfluxDB database found! Set with the --influxdb-database= argument.")
       else .returned
         { syncthingRelayUrl := flags.syncthingRelayUrl
           syncthingRelayName := flags.syncthingRelayName
           influxdbUrl :=
             if flags.influxdbUrl.data.getLast? = some '/' then flags.influxdbUrl
             else flags.influxdbUrl ++ "/"
           influxdbDatabase := flags.influxdbDatabase
           influxdbUsername := flags.influxdbUsername
           influxdbPassword := flags.influxdbPassword
           rateMultiplier := flags.rateMultiplier
           debug := flags.debug }) ∧
    (configuration_builder env flags).exit ≠
      .panicked (.message "No InfluxDB URL found! Set with the --influxdb-url= argument.") := by
  have hexit : (configuration_builder env flags).exit =
      (if flags.influxdbUrl = "" then .panicked (.indexOutOfRange (-1) 0)
       else if flags.syncthingRelayUrl = "" then
         .panicked (.message "No Syncthing relay URL found! Set with the --relay-url= argument.")
       else if flags.influxdbDatabase = "" then
         .panicked (.message
           "No InfluxDB database found! Set with the --influxdb-database= argument.")
       else .returned
         { syncthingRelayUrl := flags.syncthingRelayUrl
           syncthingRelayName := flags.syncthingRelayName
           influxdbUrl :=
             if flags.influxdbUrl.data.getLast? = some '/' then flags.influxdbUrl
             else flags.influxdbUrl ++ "/"
           influxdbDatabase := flags.influxdbDatabase
           influxdbUsername := flags.influxdbUsername
           influxdbPassword := flags.influxdbPassword
           rateMultiplier := flags.rateMultiplier
           debug := flags.debug }) := by
    unfold configuration_builder
    cases hl : flags.influxdbUrl.data.getLast? with
    | none =>
      have he : flags.influxdbUrl = "" := by
        rw [string_eq_empty_iff]; simpa using hl
      simp [hl, he]
    | some last =>
      have hne : flags.influxdbUrl ≠ "" := by
        intro he; rw [he] at hl; simp at hl
      have hne' : flags.influxdbUrl ++ "/" ≠ "" := by
        intro he
        have := congrArg String.data he
        simp [String.data_append] at this
      by_cases h1 : flags.syncthingRelayUrl = ""
      · simp [hl, hne, h1]
      · by_cases h3 : flags.influxdbDatabase = ""
        · by_cases hs : last = '/' <;> simp [hl, hne, hne', h1, h3, hs]
        · by_cases hs : last = '/' <;> simp [hl, hne, hne', h1, h3, hs]
  refine ⟨hexit, ?_⟩
  rw [hexit]
  split_ifs <;> simp

/-! ## `conn_tester` -/

/-- C10, as amended.  Once both GETs have returned status 200 and the health
body has decoded to an object whose `status` is a string other than `pass`,
`conn_tester` logs one error line and returns normally. -/
theorem conn_tester_non_pass_string (env : Env) (conf : configuration)
    (relayBody : Except String String) (bytes : String) (healthResponse : JsonMap)
    (status : String) (hdec : env.unmarshal bytes = .ok healthResponse)
    (hstatus : healthResponse.index "status" = .string status) (hne : status ≠ "pass") :
    conn_tester env conf (.response 200 relayBody) (.response 200 (.ok bytes)) =
      ⟨[.info "Starting connection tests.",
        .info "Syncthing relay connection check successful.",
        .error "InfluxDB health check was not a pass!",
        .info "InfluxDB connection check successful."], .returned ()⟩ := by
  simp [conn_tester, hdec, hstatus, Value.assertString, hne]

/-- C10 at the health payload whose status is `fail`. -/
theorem conn_tester_non_pass_string_witness :
    conn_tester sampleEnv sampleConf (.response 200 (.ok ""))
        (.response 200 (.ok "\x7b\"status\":\"fail\"\x7d")) =
      ⟨[.info "Starting connection tests.",
        .info "Syncthing relay connection check successful.",
        .error "InfluxDB health check was not a pass!",
        .info "InfluxDB connection check successful."], .returned ()⟩ :=
  conn_tester_non_pass_string sampleEnv sampleConf (.ok "") "\x7b\"status\":\"fail\"\x7d"
    [("status", .string "fail")] "fail" rfl rfl (by decide)

/-- C10 refuted: with both GETs at status 200, a health payload without a
`status` key and one whose status is a number make `conn_tester` panic
before it logs anything about the health check. -/
theorem conn_tester_panics_without_status_string :
    conn_tester sampleEnv sampleConf (.response 200 (.ok ""))
        (.response 200 (.ok "\x7b\x7d")) =
      ⟨[.info "Starting connection tests.",
        .info "Syncthing relay connection check successful."],
        .panicked .interfaceConversion⟩ ∧
    conn_tester sampleEnv sampleConf (.response 200 (.ok ""))
        (.response 200 (.ok "\x7b\"status\":503\x7d")) =
      ⟨[.info "Starting connection tests.",
        .info "Syncthing relay connection check successful."],
        .panicked .interfaceConversion⟩ := by
  refine ⟨rfl, rfl⟩

/-! ## The ticker -/

/-- C5 at `--rate-multiplier=0.5` and at `1.5`: the conversion to
`time.Duration` drops the fraction before the multiplication, so the period
for 0.5 is 0 ns, not 500000000 ns, `time.NewTicker` panics, and `main` ends
there without dispatching a report task; for 1.5 the period is one second. -/
theorem ticker_period_drops_fraction :
    durationOfFloat sampleEnv half = 0 ∧
    tickerPeriod sampleEnv { sampleConf with rateMultiplier := half } = 0 ∧
    NewTicker (tickerPeriod sampleEnv { sampleConf with rateMultiplier := half }) =
      .panicked .nonPositiveInterval ∧
    (main sampleEnv { sampleFlags with rateMultiplier := half } (.response 200 (.ok ""))
      (.response 200 (.ok "\x7b\"status\":\"pass\"\x7d")) [.tick, .shutdown]).exit =
      .panicked .nonPositiveInterval ∧
    tickerPeriod sampleEnv { sampleConf with rateMultiplier := threeHalves } = 1000000000 := by
  refine ⟨by decide, by decide, by decide, by decide, by decide⟩

/-- The period passed to `time.NewTicker` is the whole part of the rate
multiplier times 10^9 ns, whenever that product is an int64. -/
theorem tickerPeriod_whole_part (env : Env) (conf : configuration)
    (hlo : 0 ≤ Int.tdiv conf.rateMultiplier.num conf.rateMultiplier.den)
    (hhi : Int.tdiv conf.rateMultiplier.num conf.rateMultiplier.den ≤ 9223372036) :
    tickerPeriod env conf =
      Int.tdiv conf.rateMultiplier.num conf.rateMultiplier.den * 1000000000 := by
  unfold tickerPeriod durationOfFloat wrapInt64 Second
  generalize Int.tdiv conf.rateMultiplier.num conf.rateMultiplier.den = t at hlo hhi ⊢
  have h1 : -(2 ^ 63 : Int) ≤ t ∧ t < 2 ^ 63 := by constructor <;> omega
  simp only [h1, and_self, if_true]
  omega

/-- The period for the multipliers 2 and 1.5: two seconds and one second. -/
theorem tickerPeriod_whole_part_witness :
    tickerPeriod sampleEnv { sampleConf with rateMultiplier := 2 } = 2 * 1000000000 ∧
    tickerPeriod sampleEnv { sampleConf with rateMultiplier := threeHalves } =
      1 * 1000000000 :=
  ⟨tickerPeriod_whole_part sampleEnv { sampleConf with rateMultiplier := 2 }
      (by decide) (by decide),
    tickerPeriod_whole_part sampleEnv { sampleConf with rateMultiplier := threeHalves }
      (by decide) (by decide)⟩

/-! ## The loop of `main` -/

theorem run_stopped (events : List Event) : run .Stopped events = (.Stopped, 0) := by
  induction events with
  | nil => rfl
  | cons e es ih => simp [run, step, ih]

theorem run_running (events : List Event) :
    run .Running events =
      (if Event.shutdown ∈ events then LoopState.Stopped else LoopState.Running,
        (events.takeWhile (fun e => decide (e = Event.tick))).length) := by
  induction events with
  | nil => rfl
  | cons e es ih =>
    cases e with
    | tick => simp [run, step, ih, Nat.add_comm]
    | shutdown => simp [run, step, run_stopped]

theorem run_append (s : LoopState) (a b : List Event) :
    run s (a ++ b) = ((run (run s a).1 b).1, (run s a).2 + (run (run s a).1 b).2) := by
  induction a generalizing s with
  | nil => simp [run]
  | cons e es ih => simp [run, ih, Nat.add_assoc]

/-- C4. The loop of `main` as a step function over Running/Stopped: a tick
in Running dispatches one report task and stays Running, a shutdown moves to
Stopped, Stopped is terminal; so over any event sequence the number of tasks
dispatched is the number of ticks before the first shutdown, and nothing
that follows a shutdown dispatches a task. -/
theorem loop_dispatches_ticks_before_shutdown :
    step .Running .tick = (.Running, 1) ∧
    step .Running .shutdown = (.Stopped, 0) ∧
    (∀ e, step .Stopped e = (.Stopped, 0)) ∧
    (∀ events, (run .Running events).2 =
      (events.takeWhile (fun e => decide (e = Event.tick))).length) ∧
    (∀ events, run .Stopped events = (.Stopped, 0)) ∧
    (∀ before after, run .Running (before ++ Event.shutdown :: after) =
      (.Stopped, (run .Running before).2)) := by
  refine ⟨rfl, rfl, fun e => by cases e <;> rfl, fun events => by rw [run_running],
    run_stopped, fun before after => ?_⟩
  rw [run_append]
  cases h : (run .Running before).1 with
  | Running => simp [run, step, run_stopped]
  | Stopped => simp [run_stopped]

end RelayReporter
